import Mathlib

/-!
Verification development for the light-client core of this repository.

The data model and the predicate layer are embedded from
`light-spike/src/prelude.rs` and `pred/src/light_client.rs` (the two agree on
every type up to the field name `validators_hash` / `validator_hash`); the
bisecting verifier state machine from `light-spike/src/verifier.rs`; the light
client driver from `light-spike/src/light_client.rs`; the voting power
calculator from `light-client/src/operations/voting_power.rs` and
`tendermint/src/lite_impl/validator_set.rs`.

Machine integers (`u64` heights, hashes, powers) are embedded as `Nat`;
overflow is modelled explicitly where the source checks it (`checked_add` in
`compute_pivot_height`).  `SystemTime` and `Duration` are embedded as `Nat`
instants/spans, which is faithful to the source's use of `<`, `>=` and `+`
only.  Fallible capabilities return `Option`/`Except`.
-/

/-- `pub type Hash = u64` from `pred/src/light_client.rs`. -/
abbrev Hash := Nat

/-- `pub type Height = u64` from `light-spike/src/prelude.rs`. -/
abbrev Height := Nat

/-- `std::time::SystemTime`, used only through `<`, `>` and `+ Duration`. -/
abbrev SystemTime := Nat

/-- `std::time::Duration`, used only through `SystemTime + Duration`. -/
abbrev Duration := Nat

/-- `Header` from `light-spike/src/prelude.rs` (identical in
`pred/src/light_client.rs`). -/
structure Header where
  height : Height
  bft_time : SystemTime
  validator_set_hash : Hash
  next_validator_set_hash : Hash
  hash : Hash
deriving DecidableEq, Repr

/-- `ValidatorSet` from `light-spike/src/prelude.rs`: only the cached hash. -/
structure ValidatorSet where
  hash : Hash
deriving DecidableEq, Repr

/-- `Commit` from `light-spike/src/prelude.rs`: only the committed header
hash. -/
structure Commit where
  header_hash : Hash
deriving DecidableEq, Repr

/-- `TrustThreshold` from `light-spike/src/prelude.rs`. -/
structure TrustThreshold where
  numerator : Nat
  denominator : Nat
deriving DecidableEq, Repr

/-- `SignedHeader` from `light-spike/src/prelude.rs`.  The field is named
`validators_hash` there and `validator_hash` in `pred/src/light_client.rs`;
it is the same field. -/
structure SignedHeader where
  header : Header
  commit : Commit
  validators : ValidatorSet
  validators_hash : Hash
deriving DecidableEq, Repr

/-- `TrustedState` from `light-spike/src/prelude.rs`. -/
structure TrustedState where
  header : Header
  validators : ValidatorSet
deriving DecidableEq, Repr

/-- `Error` from `light-spike/src/prelude.rs` (same list in
`pred/src/light_client.rs`). -/
inductive Error where
  | ImplementationSpecific
  | InsufficientValidatorsOverlap
  | InsufficientVotingPower
  | InvalidCommit
  | InvalidCommitValue
  | InvalidNextValidatorSet
  | InvalidValidatorSet
  | NonIncreasingHeight
  | NonMonotonicBftTime
  | NotWithinTrustPeriod
deriving DecidableEq, Repr

/-- The three capability traits of `light-spike/src/prelude.rs` bundled as a
record of functions: `HeaderHasher::hash`, `CommitValidator::validate`
(collapsed to its `is_ok()` as in `_valid_commit`), and
`VotingPowerCalculator::{voting_power_in, total_power_of}` where `Ok(n)` is
`some n` and any `Err(_)` is `none` (the predicate layer only ever matches on
`Ok` versus `Err`). -/
structure Capabilities where
  header_hasher : Header → Hash
  commit_validator : Commit → ValidatorSet → Bool
  voting_power_in : Commit → ValidatorSet → Option Nat
  total_power_of : ValidatorSet → Option Nat

/-- `_validator_sets_match` from `pred/src/light_client.rs`. -/
def validator_sets_match (signed_header : SignedHeader) (validators : ValidatorSet) : Bool :=
  signed_header.validators_hash == validators.hash

/-- `_next_validators_match` from `pred/src/light_client.rs`.  Note that the
source compares `signed_header.validator_hash` with `validators.hash`, exactly
as `_validator_sets_match` does; it does not read
`header.next_validator_set_hash`. -/
def next_validators_match (signed_header : SignedHeader) (validators : ValidatorSet) : Bool :=
  signed_header.validators_hash == validators.hash

/-- `_header_matches_commit` from `pred/src/light_client.rs`. -/
def header_matches_commit (header : Header) (commit : Commit) (caps : Capabilities) : Bool :=
  caps.header_hasher header == commit.header_hash

/-- `_valid_commit` from `pred/src/light_client.rs`:
`validator.validate(commit, validators).is_ok()`. -/
def valid_commit (commit : Commit) (validators : ValidatorSet) (caps : Capabilities) : Bool :=
  caps.commit_validator commit validators

/-- `_is_within_trust_period` from `pred/src/light_client.rs`:
`header_time < now && expires_at > now` with
`expires_at = header_time + trusting_period`. -/
def is_within_trust_period (header : Header) (trusting_period : Duration)
    (now : SystemTime) : Bool :=
  decide (header.bft_time < now) && decide (header.bft_time + trusting_period > now)

/-- `_is_monotonic_bft_time` from `pred/src/light_client.rs`:
`header_b.bft_time >= header_a.bft_time`. -/
def is_monotonic_bft_time (header_a header_b : Header) : Bool :=
  decide (header_b.bft_time ≥ header_a.bft_time)

/-- `_is_monotonic_height` from `pred/src/light_client.rs`:
`header_a.height > header_b.height`. -/
def is_monotonic_height (header_a header_b : Header) : Bool :=
  decide (header_a.height > header_b.height)

/-- `_has_sufficient_voting_power` from `pred/src/light_client.rs`: both
calculator calls must return `Ok` and then
`voting_power * τ.denominator > total_power * τ.numerator`. -/
def has_sufficient_voting_power (commit : Commit) (validators : ValidatorSet)
    (trust_threshold : TrustThreshold) (caps : Capabilities) : Bool :=
  match caps.total_power_of validators, caps.voting_power_in commit validators with
  | some total_power, some voting_power =>
      decide (voting_power * trust_threshold.denominator >
        total_power * trust_threshold.numerator)
  | _, _ => false

/-- `_has_sufficient_validators_overlap` from `pred/src/light_client.rs`. -/
def has_sufficient_validators_overlap (untrusted_commit : Commit)
    (trusted_validators : ValidatorSet) (trust_threshold : TrustThreshold)
    (caps : Capabilities) : Bool :=
  has_sufficient_voting_power untrusted_commit trusted_validators trust_threshold caps

/-- `_has_sufficient_signers_overlap` from `pred/src/light_client.rs`. -/
def has_sufficient_signers_overlap (untrusted_commit : Commit)
    (untrusted_validators : ValidatorSet) (trust_threshold : TrustThreshold)
    (caps : Capabilities) : Bool :=
  has_sufficient_voting_power untrusted_commit untrusted_validators trust_threshold caps

/-- `_invalid_next_validator_set` from `pred/src/light_client.rs`. -/
def invalid_next_validator_set (trusted_state : TrustedState)
    (untrusted_sh : SignedHeader) (untrusted_next_vals : ValidatorSet) : Bool :=
  decide (untrusted_sh.header.height = trusted_state.header.height) &&
    decide (trusted_state.validators.hash ≠ untrusted_next_vals.hash)

/-- `valid_next_validator_set` from `pred/src/light_client.rs`:
`not(invalid_next_validator_set)`. -/
def valid_next_validator_set (trusted_state : TrustedState)
    (untrusted_sh : SignedHeader) (untrusted_next_vals : ValidatorSet) : Bool :=
  ! invalid_next_validator_set trusted_state untrusted_sh untrusted_next_vals

/-- `Verifier::verify_untrusted_state` from `light-spike/src/verifier.rs`:
the nine-conjunct chain built by `build_verify_predicate` in the order of
`verify_pred` (`pred/src/light_client.rs`), with the argument wiring of
`build_verify_predicate` (in particular `is_monotonic_bft_time(U.header,
T.header)`, `is_monotonic_height(T.header, U.header)` and
`valid_commit(U.commit, U.validators)`), and the failure kind each predicate's
`to_assert` attaches in `pred/src/light_client.rs`.  The `pred` combinator
library itself (`and`, `assert`) is not under `src/`; its left-to-right
short-circuit evaluation is modelled from the spec and matches the explicit
`if !p { return Err(kind) }` chain of `verify` in
`tendermint/src/lite/predicates.rs`, which is under `src/`. -/
def verify_untrusted_state (caps : Capabilities) (trusted_state : TrustedState)
    (untrusted_sh : SignedHeader) (untrusted_vals untrusted_next_vals : ValidatorSet)
    (trust_threshold : TrustThreshold) : Except Error Unit :=
  if ! validator_sets_match untrusted_sh untrusted_vals then
    .error .InvalidValidatorSet
  else if ! next_validators_match untrusted_sh untrusted_next_vals then
    .error .InvalidNextValidatorSet
  else if ! header_matches_commit untrusted_sh.header untrusted_sh.commit caps then
    .error .InvalidCommitValue
  else if ! valid_commit untrusted_sh.commit untrusted_sh.validators caps then
    .error .ImplementationSpecific
  else if ! is_monotonic_bft_time untrusted_sh.header trusted_state.header then
    .error .NonMonotonicBftTime
  else if ! is_monotonic_height trusted_state.header untrusted_sh.header then
    .error .NonIncreasingHeight
  else if ! valid_next_validator_set trusted_state untrusted_sh untrusted_next_vals then
    .error .InvalidNextValidatorSet
  else if ! has_sufficient_validators_overlap untrusted_sh.commit
      trusted_state.validators trust_threshold caps then
    .error .InsufficientValidatorsOverlap
  else if ! has_sufficient_signers_overlap untrusted_sh.commit untrusted_vals
      trust_threshold caps then
    .error .InvalidCommit
  else
    .ok ()

/-- The nine conjuncts of `verify_pred` (`pred/src/light_client.rs`) as an
ordered list of (condition, failure kind) pairs, in the order the chain
evaluates them. -/
def verify_conjuncts (caps : Capabilities) (trusted_state : TrustedState)
    (untrusted_sh : SignedHeader) (untrusted_vals untrusted_next_vals : ValidatorSet)
    (trust_threshold : TrustThreshold) : List (Bool × Error) :=
  [ (validator_sets_match untrusted_sh untrusted_vals, .InvalidValidatorSet),
    (next_validators_match untrusted_sh untrusted_next_vals, .InvalidNextValidatorSet),
    (header_matches_commit untrusted_sh.header untrusted_sh.commit caps, .InvalidCommitValue),
    (valid_commit untrusted_sh.commit untrusted_sh.validators caps, .ImplementationSpecific),
    (is_monotonic_bft_time untrusted_sh.header trusted_state.header, .NonMonotonicBftTime),
    (is_monotonic_height trusted_state.header untrusted_sh.header, .NonIncreasingHeight),
    (valid_next_validator_set trusted_state untrusted_sh untrusted_next_vals,
      .InvalidNextValidatorSet),
    (has_sufficient_validators_overlap untrusted_sh.commit trusted_state.validators
      trust_threshold caps, .InsufficientValidatorsOverlap),
    (has_sufficient_signers_overlap untrusted_sh.commit untrusted_vals
      trust_threshold caps, .InvalidCommit) ]

/-- Left-to-right first-failure evaluation of a list of labeled conditions:
the short-circuit semantics of the `pred` `and`/`assert` combinators, modelled
from the spec (the combinator library is not under `src/`). -/
def first_failure : List (Bool × Error) → Except Error Unit
  | [] => .ok ()
  | (b, e) :: rest => if b then first_failure rest else .error e

/-- `PendingState` from `light-spike/src/verifier.rs`. -/
structure PendingState where
  trusted_state : TrustedState
  untrusted_height : Height
  trust_threshold : TrustThreshold
  trusting_period : Duration
  now : SystemTime
deriving DecidableEq, Repr

/-- `VerifierInput` from `light-spike/src/verifier.rs`. -/
inductive VerifierInput where
  | VerifyAtHeight (trusted_state : TrustedState) (untrusted_height : Height)
      (trust_threshold : TrustThreshold) (trusting_period : Duration) (now : SystemTime)
  | FetchedState (height : Height) (untrusted_sh : SignedHeader)
      (untrusted_vals : ValidatorSet) (untrusted_next_vals : ValidatorSet)
deriving DecidableEq, Repr

/-- `VerifierOutput` from `light-spike/src/verifier.rs`. -/
inductive VerifierOutput where
  | StateVerified (trusted_state : TrustedState)
  | StateNeeded (height : Height)
  | VerificationNeeded (trusted_state : TrustedState) (pivot_height : Height)
      (trust_threshold : TrustThreshold) (trusting_period : Duration) (now : SystemTime)
deriving DecidableEq, Repr

/-- `VerifierError` from `light-spike/src/verifier.rs`. -/
inductive VerifierError where
  | VerificationFailed (e : Error)
  | NoMatchingPendingState (height : Height)
  | NotWithinTrustingPeriod (header : Header) (trusting_period : Duration) (now : SystemTime)
deriving DecidableEq, Repr

/-- Result of one `Verifier::handle` step: `Ok(output)`, `Err(error)`, or a
process abort (`.expect("height overflow")` panicking in
`compute_pivot_height`). -/
inductive VerifierResult where
  | output (o : VerifierOutput)
  | error (e : VerifierError)
  | panic
deriving DecidableEq, Repr

/-- The verifier's `pending_states: HashMap<Height, PendingState>` as an
association list with at most one entry per key (inserts overwrite). -/
structure VerifierState where
  pending_states : List (Height × PendingState)
deriving DecidableEq, Repr

/-- `HashMap::insert`: add the binding, dropping any previous binding of the
same key. -/
def mapInsert (k : Height) (v : PendingState) (m : List (Height × PendingState)) :
    List (Height × PendingState) :=
  (k, v) :: m.filter (fun p => p.1 != k)

/-- `HashMap::remove`, value part: `List.lookup` finds the binding if any. -/
def mapDrop (k : Height) (m : List (Height × PendingState)) :
    List (Height × PendingState) :=
  m.filter (fun p => p.1 != k)

/-- `Verifier::compute_pivot_height` from `light-spike/src/verifier.rs`:
`trusted_h.checked_add(untrusted_h).expect("height overflow") / 2`.  `none`
models the panic when the `u64` addition overflows. -/
def compute_pivot_height (trusted_state : TrustedState) (untrusted_sh : SignedHeader) :
    Option Height :=
  let trusted_h := trusted_state.header.height
  let untrusted_h := untrusted_sh.header.height
  if trusted_h + untrusted_h < 2 ^ 64 then some ((trusted_h + untrusted_h) / 2) else none

/-- `Verifier::perform_verification` from `light-spike/src/verifier.rs`:
dispatch on the result of the predicate chain.  `Ok` promotes
`TrustedState{U.header, V}`; `Err(Error::InsufficientVotingPower)` - and only
that kind - takes the bisection branch; every other kind becomes
`Err(VerificationFailed(kind))`. -/
def perform_verification (caps : Capabilities) (trusted_state : TrustedState)
    (untrusted_sh : SignedHeader) (untrusted_vals untrusted_next_vals : ValidatorSet)
    (trust_threshold : TrustThreshold) (trusting_period : Duration)
    (now : SystemTime) : VerifierResult :=
  match verify_untrusted_state caps trusted_state untrusted_sh untrusted_vals
      untrusted_next_vals trust_threshold with
  | .ok () =>
      .output (.StateVerified ⟨untrusted_sh.header, untrusted_vals⟩)
  | .error .InsufficientVotingPower =>
      match compute_pivot_height trusted_state untrusted_sh with
      | some pivot_height =>
          .output (.VerificationNeeded trusted_state pivot_height trust_threshold
            trusting_period now)
      | none => .panic
  | .error e => .error (.VerificationFailed e)

/-- `Verifier::handle` from `light-spike/src/verifier.rs`
(`on_verify_at_height` / `start_verification` / `on_fetched_state`).  The
capabilities are the boxed trait objects the `Verifier` struct holds; they are
passed as a parameter since they never change. -/
def verifierHandle (caps : Capabilities) (s : VerifierState) :
    VerifierInput → VerifierResult × VerifierState
  | .VerifyAtHeight trusted_state untrusted_height trust_threshold trusting_period now =>
      if is_within_trust_period trusted_state.header trusting_period now then
        (.output (.StateNeeded untrusted_height),
          ⟨mapInsert untrusted_height
            ⟨trusted_state, untrusted_height, trust_threshold, trusting_period, now⟩
            s.pending_states⟩)
      else
        (.error (.NotWithinTrustingPeriod trusted_state.header trusting_period now), s)
  | .FetchedState height untrusted_sh untrusted_vals untrusted_next_vals =>
      match s.pending_states.lookup height with
      | none => (.error (.NoMatchingPendingState height), s)
      | some pending_state =>
          (perform_verification caps pending_state.trusted_state untrusted_sh
            untrusted_vals untrusted_next_vals pending_state.trust_threshold
            pending_state.trusting_period pending_state.now,
          ⟨mapDrop height s.pending_states⟩)

/-- `LightClientError` from `light-spike/src/light_client.rs`. -/
inductive LightClientError where
  | NoMatchingPendingState (height : Height)
  | NextHeightMismatch (expected got : Height)
deriving DecidableEq, Repr

/-- `LightClientEvent` from `light-spike/src/light_client.rs` (the `Error`
variant is never constructed there and is omitted). -/
inductive LightClientEvent where
  | VerifyAtHeight (trusted_state : TrustedState) (untrusted_height : Height)
      (trust_threshold : TrustThreshold) (trusting_period : Duration) (now : SystemTime)
  | NewTrustedState (trusted_state : TrustedState)
  | PerformVerification (trusted_state : TrustedState) (untrusted_height : Height)
      (trust_threshold : TrustThreshold) (trusting_period : Duration) (now : SystemTime)
  | NewTrustedStates (trusted_height : Height) (trusted_states : List TrustedState)
  | AlreadyVerified (height : Height)
deriving DecidableEq, Repr

/-- The light client's own `PendingState` struct from
`light-spike/src/light_client.rs` (same fields as the verifier's). -/
structure ClientPendingState where
  trusted_state : TrustedState
  untrusted_height : Height
  trust_threshold : TrustThreshold
  trusting_period : Duration
  now : SystemTime
deriving DecidableEq, Repr

/-- `HashMap::insert` for the client's pending states map. -/
def clientMapInsert (k : Height) (v : ClientPendingState)
    (m : List (Height × ClientPendingState)) : List (Height × ClientPendingState) :=
  (k, v) :: m.filter (fun p => p.1 != k)

/-- `HashMap::remove` (key deletion part) for the client's pending states. -/
def clientMapDrop (k : Height) (m : List (Height × ClientPendingState)) :
    List (Height × ClientPendingState) :=
  m.filter (fun p => p.1 != k)

/-- `TrustedStore` write (`TSReadWriter::set`): height-keyed write-through
store. -/
def storeSet (k : Height) (v : TrustedState) (m : List (Height × TrustedState)) :
    List (Height × TrustedState) :=
  (k, v) :: m.filter (fun p => p.1 != k)

/-- The `LightClient` struct state from `light-spike/src/light_client.rs`:
`pending_heights` is the `VecDeque` with its front at the list head,
`pending_states` the height-keyed map, `verified_states` the in-order list of
states verified under the current top-level request, `trusted_store` the
write-through store. -/
structure LightClientState where
  trusted_store : List (Height × TrustedState)
  pending_heights : List Height
  pending_states : List (Height × ClientPendingState)
  verified_states : List TrustedState
deriving DecidableEq, Repr

/-- Result of one `LightClient::handle` step; `.panic` models the
`unreachable!()` arm for output-only events fed back in. -/
inductive LightClientResult where
  | ok (e : LightClientEvent)
  | error (e : LightClientError)
  | panic
deriving DecidableEq, Repr

/-- `LightClient::reset` from `light-spike/src/light_client.rs`: clears
`pending_heights` and `pending_states` - and nothing else (in particular not
`verified_states`, which the success path drains separately, and which no
error path touches). -/
def lightClientReset (s : LightClientState) : LightClientState :=
  { s with pending_heights := [], pending_states := [] }

/-- `LightClient::handle` from `light-spike/src/light_client.rs`.  Mutation
order is preserved: on `NewTrustedState` the `pop_front` happens before any
check, so the error branches (`NextHeightMismatch`,
`NoMatchingPendingState`) leave the state with the top height already
popped and everything else (including `verified_states`) untouched. -/
def lightClientHandle (s : LightClientState) :
    LightClientEvent → LightClientResult × LightClientState
  | .VerifyAtHeight trusted_state untrusted_height trust_threshold trusting_period now =>
      (.ok (.PerformVerification trusted_state untrusted_height trust_threshold
        trusting_period now),
      { s with
          pending_heights := untrusted_height :: s.pending_heights,
          pending_states := clientMapInsert untrusted_height
            ⟨trusted_state, untrusted_height, trust_threshold, trusting_period, now⟩
            s.pending_states })
  | .NewTrustedState new_trusted_state =>
      let new_height := new_trusted_state.header.height
      match s.pending_heights with
      | [] => (.ok (.AlreadyVerified new_height), s)
      | latest_height_to_verify :: rest =>
          if latest_height_to_verify = new_height then
            match s.pending_states.lookup latest_height_to_verify with
            | none =>
                (.error (.NoMatchingPendingState latest_height_to_verify),
                  { s with pending_heights := rest })
            | some pending_state =>
                let store' := storeSet new_height new_trusted_state s.trusted_store
                let verified' := s.verified_states ++ [new_trusted_state]
                match rest with
                | next_height_to_verify :: _ =>
                    (.ok (.PerformVerification new_trusted_state next_height_to_verify
                      pending_state.trust_threshold pending_state.trusting_period
                      pending_state.now),
                    { trusted_store := store',
                      pending_heights := rest,
                      pending_states := clientMapDrop latest_height_to_verify
                        s.pending_states,
                      verified_states := verified' })
                | [] =>
                    (.ok (.NewTrustedStates latest_height_to_verify verified'),
                    lightClientReset
                      { trusted_store := store',
                        pending_heights := [],
                        pending_states := clientMapDrop latest_height_to_verify
                          s.pending_states,
                        verified_states := [] })
          else
            (.error (.NextHeightMismatch latest_height_to_verify new_height),
              { s with pending_heights := rest })
  | _ => (.panic, s)

/-- Modelled from the spec: predicate `within_trust_period` of section 4.1,
`T.header.bft_time < t ∧ T.header.bft_time + Δ > t`.  Spec-side definition,
for comparison with the implementation. -/
def specWithinTrustPeriod (trusted_state : TrustedState) (trusting_period : Duration)
    (now : SystemTime) : Bool :=
  decide (trusted_state.header.bft_time < now) &&
    decide (trusted_state.header.bft_time + trusting_period > now)

/-- Modelled from the spec: predicate `validator_sets_match` of section 4.1,
`U.validators_hash = V.hash`. -/
def specValidatorSetsMatch (untrusted_sh : SignedHeader) (untrusted_vals : ValidatorSet) :
    Bool :=
  untrusted_sh.validators_hash == untrusted_vals.hash

/-- Modelled from the spec: predicate `next_validators_match` of section 4.1,
`U.header.next_validators_hash = V'.hash`. -/
def specNextValidatorsMatch (untrusted_sh : SignedHeader)
    (untrusted_next_vals : ValidatorSet) : Bool :=
  untrusted_sh.header.next_validator_set_hash == untrusted_next_vals.hash

/-- Modelled from the spec: predicate `header_matches_commit` of section 4.1,
`HeaderHasher(U.header) = U.commit.header_hash`. -/
def specHeaderMatchesCommit (caps : Capabilities) (untrusted_sh : SignedHeader) : Bool :=
  caps.header_hasher untrusted_sh.header == untrusted_sh.commit.header_hash

/-- Modelled from the spec: predicate `valid_commit` of section 4.1,
`CommitValidator.validate(U.commit, V) succeeds`. -/
def specValidCommit (caps : Capabilities) (untrusted_sh : SignedHeader)
    (untrusted_vals : ValidatorSet) : Bool :=
  caps.commit_validator untrusted_sh.commit untrusted_vals

/-- Modelled from the spec: predicate `monotonic_bft_time` of section 4.1,
`U.header.bft_time ≥ T.header.bft_time`. -/
def specMonotonicBftTime (trusted_state : TrustedState) (untrusted_sh : SignedHeader) :
    Bool :=
  decide (untrusted_sh.header.bft_time ≥ trusted_state.header.bft_time)

/-- Modelled from the spec: predicate `monotonic_height` of section 4.1,
`U.header.height > T.header.height`. -/
def specMonotonicHeight (trusted_state : TrustedState) (untrusted_sh : SignedHeader) :
    Bool :=
  decide (untrusted_sh.header.height > trusted_state.header.height)

/-- Modelled from the spec: predicate `valid_next_validator_set` of section
4.1, `¬(U.header.height = T.header.height ∧ T.validators.hash ≠ V'.hash)`. -/
def specValidNextValidatorSet (trusted_state : TrustedState)
    (untrusted_sh : SignedHeader) (untrusted_next_vals : ValidatorSet) : Bool :=
  ! (decide (untrusted_sh.header.height = trusted_state.header.height) &&
      decide (trusted_state.validators.hash ≠ untrusted_next_vals.hash))

/-- Modelled from the spec: predicate `sufficient_validators_overlap` of
section 4.1, `power(signers of U.commit ∩ T.validators) · τ.den >
total_power(T.validators) · τ.num`, through the calculator capability. -/
def specSufficientValidatorsOverlap (caps : Capabilities)
    (untrusted_sh : SignedHeader) (trusted_state : TrustedState)
    (trust_threshold : TrustThreshold) : Bool :=
  match caps.total_power_of trusted_state.validators,
      caps.voting_power_in untrusted_sh.commit trusted_state.validators with
  | some total_power, some voting_power =>
      decide (voting_power * trust_threshold.denominator >
        total_power * trust_threshold.numerator)
  | _, _ => false

/-- Modelled from the spec: predicate `sufficient_signers_overlap` of section
4.1, `power(signers of U.commit ∩ V) · τ.den > total_power(V) · τ.num`. -/
def specSufficientSignersOverlap (caps : Capabilities)
    (untrusted_sh : SignedHeader) (untrusted_vals : ValidatorSet)
    (trust_threshold : TrustThreshold) : Bool :=
  match caps.total_power_of untrusted_vals,
      caps.voting_power_in untrusted_sh.commit untrusted_vals with
  | some total_power, some voting_power =>
      decide (voting_power * trust_threshold.denominator >
        total_power * trust_threshold.numerator)
  | _, _ => false

/-- Modelled from the spec: the conjunction of all ten predicates of section
4.1, as the spec defines them, under the supplied trusted state, untrusted
signed header, fetched validator sets, trust threshold, trusting period and
now. -/
def specVerificationConditions (caps : Capabilities) (trusted_state : TrustedState)
    (untrusted_sh : SignedHeader) (untrusted_vals untrusted_next_vals : ValidatorSet)
    (trust_threshold : TrustThreshold) (trusting_period : Duration)
    (now : SystemTime) : Bool :=
  specWithinTrustPeriod trusted_state trusting_period now &&
  specValidatorSetsMatch untrusted_sh untrusted_vals &&
  specNextValidatorsMatch untrusted_sh untrusted_next_vals &&
  specHeaderMatchesCommit caps untrusted_sh &&
  specValidCommit caps untrusted_sh untrusted_vals &&
  specMonotonicBftTime trusted_state untrusted_sh &&
  specMonotonicHeight trusted_state untrusted_sh &&
  specValidNextValidatorSet trusted_state untrusted_sh untrusted_next_vals &&
  specSufficientValidatorsOverlap caps untrusted_sh trusted_state trust_threshold &&
  specSufficientSignersOverlap caps untrusted_sh untrusted_vals trust_threshold

/-- `CommitSig` flags from `tendermint::block::CommitSig` as used by
`voting_power_in` in `light-client/src/operations/voting_power.rs`; the
signature bytes themselves are abstracted away (signature verification is
supplied as an oracle indexed by the slot position). -/
inductive CommitSig where
  | BlockIDFlagAbsent
  | BlockIDFlagCommit
  | BlockIDFlagNil
deriving DecidableEq, Repr

/-- `CommitSig::is_absent`. -/
def CommitSig.is_absent : CommitSig → Bool
  | .BlockIDFlagAbsent => true
  | _ => false

/-- `CommitSig::is_commit`. -/
def CommitSig.is_commit : CommitSig → Bool
  | .BlockIDFlagCommit => true
  | _ => false

/-- `total_power` from `tendermint/src/lite_impl/validator_set.rs`: fold of
the validator voting powers starting at 0. -/
def total_power (validators : List Nat) : Nat :=
  validators.foldl (fun total p => total + p) 0

/-- The signature loop of `ProdVotingPowerCalculator::voting_power_in` from
`light-client/src/operations/voting_power.rs`.  `verify_signature i` is the
outcome of `val.verify_signature(&sign_bytes, signed_vote.signature())` for
slot `i` (validator and signature at the same index); `validators` is the
list of validator voting powers; `voting_power_needed` is fixed by the caller.
Absent slots are skipped; a failed verification aborts with
`ImplementationSpecific`; only Commit-flagged slots are tallied; after each
non-Absent slot the loop breaks once `tallied >= needed`.  `validators.getD
idx 0` stands for the Rust `validators[idx]`, which panics when `idx` is out
of range; theorems therefore assume the slot count does not exceed the
validator count. -/
def voting_power_loop (verify_signature : Nat → Bool) (validators : List Nat)
    (voting_power_needed : Nat) :
    List CommitSig → Nat → Nat → Except Error Nat
  | [], _, tallied_voting_power => .ok tallied_voting_power
  | signature :: rest, idx, tallied_voting_power =>
      if signature.is_absent then
        voting_power_loop verify_signature validators voting_power_needed rest
          (idx + 1) tallied_voting_power
      else if ! verify_signature idx then
        .error .ImplementationSpecific
      else
        let tallied' := if signature.is_commit then
            tallied_voting_power + validators.getD idx 0
          else tallied_voting_power
        if voting_power_needed ≤ tallied' then .ok tallied'
        else voting_power_loop verify_signature validators voting_power_needed rest
          (idx + 1) tallied'

/-- `ProdVotingPowerCalculator::voting_power_in` from
`light-client/src/operations/voting_power.rs`:
`voting_power_needed = total_power_of(validator_set) * 2 / 3`, then the
signature loop from index 0 with tally 0. -/
def prod_voting_power_in (verify_signature : Nat → Bool) (validators : List Nat)
    (signatures : List CommitSig) : Except Error Nat :=
  voting_power_loop verify_signature validators (total_power validators * 2 / 3)
    signatures 0 0

/-- Voting power contributed by the Commit-flagged slots of a signature list,
reading validator powers from position `idx` onward: the reference sum used to
characterise what `voting_power_loop` tallies. -/
def commit_power_from (validators : List Nat) (idx : Nat) : List CommitSig → Nat
  | [] => 0
  | signature :: rest =>
      (if signature.is_commit then validators.getD idx 0 else 0) +
        commit_power_from validators (idx + 1) rest

/-- Modelled from the spec: the depth-first bisection process of sections 4.2
and 4.3 driven over heights, with verification outcomes abstracted into an
oracle.  `ok t u = true` means the direct verification of the fetched state at
height `u` against the trusted state at height `t` succeeds;
`ok t u = false` means it fails with insufficient validators overlap, upon
which the spec's transition table emits `VerificationNeeded` with
`pivot = (t + u) / 2` computed by `compute_pivot_height` (`checked_add`, hence
the `2 ^ 64` overflow guard aborting the run), the client pushes the pivot
above the current top, verifies `(t, pivot)` first and then `(pivot, u)`
against the newly trusted pivot state.  A request with `u ≤ t` (in particular
the inner request of a gap-1 bisection, whose pivot equals `t`) always fails:
its `monotonic_height` conjunct is false whatever the fetched data.  This
process is modelled from the spec because the dispatch making bisection live
is unreachable in `light-spike/src/verifier.rs` as written (see the
development around `perform_verification`).  Returns the pivots emitted, in
emission order, and whether the whole request succeeded. -/
def bisect (ok : Nat → Nat → Bool) (t u : Nat) : List Nat × Bool :=
  if h : t < u then
    if ok t u then ([], true)
    else if hov : t + u < 2 ^ 64 then
      if hp : t < (t + u) / 2 then
        let r₁ := bisect ok t ((t + u) / 2)
        if r₁.2 then
          let r₂ := bisect ok ((t + u) / 2) u
          ((t + u) / 2 :: (r₁.1 ++ r₂.1), r₂.2)
        else ((t + u) / 2 :: r₁.1, false)
      else ([(t + u) / 2], false)
    else ([], false)
  else ([], false)
termination_by u - t
decreasing_by
  all_goals omega

/-- Modelled from the spec: the maximum number of bisection rounds nested at
any point of the `bisect` process - equivalently, the largest number of
pivots simultaneously outstanding on the client's `pending_heights` stack
above the original target. -/
def bisect_rounds (ok : Nat → Nat → Bool) (t u : Nat) : Nat :=
  if h : t < u then
    if ok t u then 0
    else if hov : t + u < 2 ^ 64 then
      if hp : t < (t + u) / 2 then
        1 + max (bisect_rounds ok t ((t + u) / 2)) (bisect_rounds ok ((t + u) / 2) u)
      else 1
    else 0
  else 0
termination_by u - t
decreasing_by
  all_goals omega

/-- Trusted header at height 2 used by the concrete verifier runs. -/
def trustedHeaderA : Header := ⟨2, 10, 100, 100, 50⟩

/-- Trusted state at height 2, validator set hash 100. -/
def trustedStateA : TrustedState := ⟨trustedHeaderA, ⟨100⟩⟩

/-- Untrusted header at height 1 - a height BELOW the trusted one - with
`bft_time` 5 earlier than the trusted header's 10. -/
def untrustedHeaderA : Header := ⟨1, 5, 200, 777, 60⟩

/-- Untrusted signed header wrapping `untrustedHeaderA`: commit for hash 60,
`validators_hash` 200. -/
def untrustedShA : SignedHeader := ⟨untrustedHeaderA, ⟨60⟩, ⟨200⟩, 200⟩

/-- Fetched validator set at the untrusted height, hash 200. -/
def untrustedValsA : ValidatorSet := ⟨200⟩

/-- Fetched next validator set, also hash 200 (so the code's
`next_validators_match` passes, even though
`untrustedHeaderA.next_validator_set_hash` is 777). -/
def untrustedNextValsA : ValidatorSet := ⟨200⟩

/-- Canonical 1/3 trust threshold. -/
def thresholdA : TrustThreshold := ⟨1, 3⟩

/-- Mock capabilities: the hasher returns the header's cached hash, the commit
validator accepts, the calculator reports voting power 3 of total 4 for every
set (so both overlap conjuncts pass at threshold 1/3). -/
def capsA : Capabilities :=
  ⟨fun h => h.hash, fun _ _ => true, fun _ _ => some 3, fun _ => some 4⟩

/-- Mock capabilities as `capsA` except that the calculator reports voting
power 1 for the trusted validator set (hash 100), making
`has_sufficient_validators_overlap` fail while every earlier conjunct
passes. -/
def capsB : Capabilities :=
  ⟨fun h => h.hash, fun _ _ => true,
    fun _ vals => if vals.hash == 100 then some 1 else some 3, fun _ => some 4⟩

/-- Claim C1: if the verifier, handling a `FetchedState` with a matching
`PendingState` (created here by a preceding `VerifyAtHeight`), returns
`StateVerified(TS)`, then `TS.header = U.header`, `TS.validators = V`, and
all ten predicates of spec section 4.1 as the spec defines them hold.  The
first part holds, but the run below returns `StateVerified` on an input where
the spec's `monotonic_height` predicate is FALSE (the untrusted height 1 is
below the trusted height 2): the implemented conjunct
`is_monotonic_height(T.header, U.header)` tests `T.height > U.height`,
accepting exactly the headers the spec's `U.header.height > T.header.height`
rejects.  The code contradicts the spec (and its own predicate name and
`NonIncreasingHeight` failure kind): a code bug, evaluated here at the
failing input. -/
theorem c1_state_verified_spec_predicates_violated :
    (verifierHandle capsA
        (verifierHandle capsA ⟨[]⟩
          (.VerifyAtHeight trustedStateA 1 thresholdA 100 15)).2
        (.FetchedState 1 untrustedShA untrustedValsA untrustedNextValsA)).1
      = .output (.StateVerified ⟨untrustedShA.header, untrustedValsA⟩)
    ∧ specMonotonicHeight trustedStateA untrustedShA = false
    ∧ specVerificationConditions capsA trustedStateA untrustedShA untrustedValsA
        untrustedNextValsA thresholdA 100 15 = false := by
  refine ⟨rfl, rfl, rfl⟩

/-- Claim C2: a `FetchedState` whose predicate evaluation fails with kind
`InsufficientValidatorsOverlap` is claimed to yield a `VerificationNeeded`
output.  In `Verifier::perform_verification` the bisection branch matches
`Err(Error::InsufficientVotingPower)` - a kind the nine-conjunct chain never
produces - while the overlap predicate's `to_assert` kind is
`InsufficientValidatorsOverlap`, which therefore falls into the
`Err(err) => Err(VerificationFailed(err))` arm: the verifier errors instead
of requesting bisection.  Evaluated at a concrete failing input. -/
theorem c2_insufficient_overlap_errors_instead_of_bisecting :
    verify_untrusted_state capsB trustedStateA untrustedShA untrustedValsA
        untrustedNextValsA thresholdA = .error .InsufficientValidatorsOverlap
    ∧ (verifierHandle capsB
        (verifierHandle capsB ⟨[]⟩
          (.VerifyAtHeight trustedStateA 1 thresholdA 100 15)).2
        (.FetchedState 1 untrustedShA untrustedValsA untrustedNextValsA)).1
      = .error (.VerificationFailed .InsufficientValidatorsOverlap) := by
  refine ⟨rfl, rfl⟩

/-- Trusted header/state at height 1 for the increasing-height run. -/
def trustedStateC : TrustedState := ⟨⟨1, 10, 100, 100, 50⟩, ⟨100⟩⟩

/-- Untrusted signed header at height 2 - strictly ABOVE the trusted height 1
- with `bft_time` 5 (so the code's reversed bft-time conjunct passes and the
chain reaches the height conjunct). -/
def untrustedShC : SignedHeader := ⟨⟨2, 5, 200, 777, 60⟩, ⟨60⟩, ⟨200⟩, 200⟩

/-- Claim C3: the monotonic-height conjunct is claimed to succeed exactly when
`U.header.height > T.header.height` with failure kind `NonIncreasingHeight`.
The conjunct as wired - `is_monotonic_height(T.header, U.header)` with
`_is_monotonic_height(a, b) = a.height > b.height` - tests
`T.height > U.height` instead: on an input with the untrusted height 2 above
the trusted height 1 (and every earlier conjunct passing) the chain fails
with `NonIncreasingHeight`, and on the height-decreasing input of C1 the
conjunct succeeds.  The call-site argument order contradicts the predicate's
own name and failure kind: a code bug, evaluated at both inputs. -/
theorem c3_monotonic_height_reversed :
    verify_untrusted_state capsA trustedStateC untrustedShC untrustedValsA
        untrustedNextValsA thresholdA = .error .NonIncreasingHeight
    ∧ untrustedShC.header.height > trustedStateC.header.height
    ∧ is_monotonic_height trustedStateC.header untrustedShC.header = false
    ∧ is_monotonic_height trustedHeaderA untrustedHeaderA = true
    ∧ ¬ untrustedHeaderA.height > trustedHeaderA.height := by
  refine ⟨rfl, by decide, rfl, rfl, by decide⟩

/-- Signed header whose `validators_hash` field is 5 while its header's
`next_validator_set_hash` is 7. -/
def signedHeaderD : SignedHeader := ⟨⟨3, 5, 200, 7, 60⟩, ⟨60⟩, ⟨200⟩, 5⟩

/-- Signed header whose `validators_hash` field is 7 while its header's
`next_validator_set_hash` is 9. -/
def signedHeaderD2 : SignedHeader := ⟨⟨3, 5, 200, 9, 60⟩, ⟨60⟩, ⟨200⟩, 7⟩

/-- Next validator set of hash 7. -/
def nextValsD : ValidatorSet := ⟨7⟩

/-- Claim C4: `next_validators_match` is claimed to succeed exactly when
`U.header.next_validators_hash = V'.hash`.  The implementation
(`_next_validators_match` in `pred/src/light_client.rs`, identically in
`tendermint/src/lite/predicates.rs`) instead compares the signed header's
`validators_hash` field with `V'.hash` - a verbatim copy of
`_validator_sets_match` - and never reads `next_validator_set_hash`, which
the `Header` struct carries for exactly this check: a code bug.  Both
directions of the claimed equivalence fail on the inputs below. -/
theorem c4_next_validators_match_wrong_field :
    (next_validators_match signedHeaderD nextValsD = false
      ∧ signedHeaderD.header.next_validator_set_hash = nextValsD.hash)
    ∧ (next_validators_match signedHeaderD2 nextValsD = true
      ∧ signedHeaderD2.header.next_validator_set_hash ≠ nextValsD.hash) := by
  refine ⟨⟨rfl, rfl⟩, ⟨rfl, by decide⟩⟩

/-- Claim C5: the conjunctive verification condition evaluates its nine
conjuncts left to right in the listed order (`validator_sets_match`,
`next_validators_match`, `header_matches_commit`, `valid_commit`,
`monotonic_bft_time`, `monotonic_height`, `valid_next_validator_set`,
`sufficient_validators_overlap`, `sufficient_signers_overlap` - the spec's
section 4.1 order minus `within_trust_period`, which the verifier checks
before fetching, not in the chain), returns the failure kind of the first
false conjunct, and the result is independent of every conjunct after the
first failure (none of them is evaluated).  First part: the chain equals the
ordered first-failure scan of the conjunct list.  Second part: whenever every
conjunct of a checked front is true and the next conjunct is false with kind
`kind`, the scan returns `kind` no matter what stands after it. -/
theorem c5_short_circuit_first_failure :
    (∀ (caps : Capabilities) (trusted_state : TrustedState)
      (untrusted_sh : SignedHeader) (untrusted_vals untrusted_next_vals : ValidatorSet)
      (trust_threshold : TrustThreshold),
      verify_untrusted_state caps trusted_state untrusted_sh untrusted_vals
          untrusted_next_vals trust_threshold
        = first_failure (verify_conjuncts caps trusted_state untrusted_sh
            untrusted_vals untrusted_next_vals trust_threshold))
    ∧ (∀ (checked : List (Bool × Error)) (kind : Error)
        (rest₁ rest₂ : List (Bool × Error)),
        (∀ c ∈ checked, c.1 = true) →
        first_failure (checked ++ (false, kind) :: rest₁) = .error kind
        ∧ first_failure (checked ++ (false, kind) :: rest₁)
          = first_failure (checked ++ (false, kind) :: rest₂)) := by
  constructor
  · intro caps trusted_state untrusted_sh untrusted_vals untrusted_next_vals trust_threshold
    unfold verify_untrusted_state verify_conjuncts
    cases h1 : validator_sets_match untrusted_sh untrusted_vals
    · simp [first_failure, h1]
    cases h2 : next_validators_match untrusted_sh untrusted_next_vals
    · simp [first_failure, h1, h2]
    cases h3 : header_matches_commit untrusted_sh.header untrusted_sh.commit caps
    · simp [first_failure, h1, h2, h3]
    cases h4 : valid_commit untrusted_sh.commit untrusted_sh.validators caps
    · simp [first_failure, h1, h2, h3, h4]
    cases h5 : is_monotonic_bft_time untrusted_sh.header trusted_state.header
    · simp [first_failure, h1, h2, h3, h4, h5]
    cases h6 : is_monotonic_height trusted_state.header untrusted_sh.header
    · simp [first_failure, h1, h2, h3, h4, h5, h6]
    cases h7 : valid_next_validator_set trusted_state untrusted_sh untrusted_next_vals
    · simp [first_failure, h1, h2, h3, h4, h5, h6, h7]
    cases h8 : has_sufficient_validators_overlap untrusted_sh.commit
        trusted_state.validators trust_threshold caps
    · simp [first_failure, h1, h2, h3, h4, h5, h6, h7, h8]
    cases h9 : has_sufficient_signers_overlap untrusted_sh.commit untrusted_vals
        trust_threshold caps
    · simp [first_failure, h1, h2, h3, h4, h5, h6, h7, h8, h9]
    simp [first_failure, h1, h2, h3, h4, h5, h6, h7, h8, h9]
  · intro checked kind rest₁ rest₂ hchecked
    induction checked with
    | nil => simp [first_failure]
    | cons c cs ih =>
        obtain ⟨b, e⟩ := c
        have hb : b = true := hchecked ⟨b, e⟩ (List.mem_cons_self _ _)
        subst hb
        have ih' := ih fun c hc => hchecked c (List.mem_cons_of_mem _ hc)
        simpa [first_failure] using ih'

/-- Witness for C5: the chain equality at the concrete C1 inputs, and the
first-failure property at a concrete checked front, failing conjunct and two
different tails. -/
theorem c5_short_circuit_first_failure_witness :
    (verify_untrusted_state capsA trustedStateA untrustedShA untrustedValsA
        untrustedNextValsA thresholdA
      = first_failure (verify_conjuncts capsA trustedStateA untrustedShA
          untrustedValsA untrustedNextValsA thresholdA))
    ∧ (first_failure ([(true, Error.InvalidValidatorSet)] ++
          (false, Error.NonIncreasingHeight) :: [(false, Error.InvalidCommit)])
        = .error .NonIncreasingHeight
      ∧ first_failure ([(true, Error.InvalidValidatorSet)] ++
          (false, Error.NonIncreasingHeight) :: [(false, Error.InvalidCommit)])
        = first_failure ([(true, Error.InvalidValidatorSet)] ++
            (false, Error.NonIncreasingHeight) :: [(true, Error.InvalidCommit)])) :=
  ⟨c5_short_circuit_first_failure.1 capsA trustedStateA untrustedShA untrustedValsA
      untrustedNextValsA thresholdA,
    c5_short_circuit_first_failure.2 [(true, Error.InvalidValidatorSet)]
      Error.NonIncreasingHeight [(false, Error.InvalidCommit)]
      [(true, Error.InvalidCommit)] (by decide)⟩

/-- A trusted state at height 0 used as the client's starting point. -/
def clientTrusted : TrustedState := ⟨⟨0, 1, 10, 10, 11⟩, ⟨10⟩⟩

/-- A trusted state at height 3, as produced by the verifier for the pivot. -/
def trustedAt3 : TrustedState := ⟨⟨3, 4, 20, 20, 21⟩, ⟨20⟩⟩

/-- A trusted state at height 8. -/
def trustedAt8 : TrustedState := ⟨⟨8, 6, 30, 30, 31⟩, ⟨30⟩⟩

/-- A trusted state at height 9, fed to the client while it expects height
5. -/
def trustedAt9 : TrustedState := ⟨⟨9, 7, 40, 40, 41⟩, ⟨40⟩⟩

/-- Client state after `VerifyAtHeight{clientTrusted, 5}` with context
threshold 2/3, trusting period 200, now 99. -/
def lcStateB1 : LightClientState :=
  (lightClientHandle ⟨[], [], [], []⟩
    (.VerifyAtHeight clientTrusted 5 ⟨2, 3⟩ 200 99)).2

/-- Client state after additionally `VerifyAtHeight{clientTrusted, 3}` (the
routed bisection pivot) with the DIFFERENT context threshold 1/3, trusting
period 100, now 15. -/
def lcStateB2 : LightClientState :=
  (lightClientHandle lcStateB1 (.VerifyAtHeight clientTrusted 3 ⟨1, 3⟩ 100 15)).2

/-- Counterexample to claim C6: with heights 3 (top) and 5 (next) pending and
distinct contexts stored for them, handling `NewTrustedState` at height 3
emits `PerformVerification` for height 5 carrying the context stored for the
POPPED height 3 (threshold 1/3, period 100, now 15), not the context stored
for `next_top` 5 (threshold 2/3, period 200, now 99) as the claim states:
`LightClient::handle` reads `pending_state`, the entry it removed for
`latest_height_to_verify`, when building the next `PerformVerification`. -/
theorem c6_context_from_popped_height_cex :
    (lightClientHandle lcStateB2 (.NewTrustedState trustedAt3)).1
      = .ok (.PerformVerification trustedAt3 5 ⟨1, 3⟩ 100 15)
    ∧ lcStateB2.pending_states.lookup 5 = some ⟨clientTrusted, 5, ⟨2, 3⟩, 200, 99⟩
    ∧ LightClientResult.ok (.PerformVerification trustedAt3 5 ⟨1, 3⟩ 100 15)
      ≠ .ok (.PerformVerification trustedAt3 5 ⟨2, 3⟩ 200 99) := by
  refine ⟨rfl, rfl, by decide⟩

/-- Claim C6 as amended: when the client handles `NewTrustedState(TS)`, the
popped height equals `TS.header.height`, a pending-state entry exists for it,
and more heights remain, it emits `PerformVerification` for the new top
height using `TS` as trusted state and the trust threshold, trusting period
and now from the context stored for the POPPED height (the height just
verified) - not the context stored for `next_top`. -/
theorem c6_perform_verification_uses_popped_context
    (s : LightClientState) (ts : TrustedState) (top next : Height)
    (rest : List Height) (ps : ClientPendingState)
    (hh : s.pending_heights = top :: next :: rest)
    (hts : ts.header.height = top)
    (hlook : s.pending_states.lookup top = some ps) :
    (lightClientHandle s (.NewTrustedState ts)).1
      = .ok (.PerformVerification ts next ps.trust_threshold ps.trusting_period
          ps.now) := by
  unfold lightClientHandle
  rw [hh]
  simp [hts, hlook]

/-- Witness for the amended C6 at the concrete two-request state. -/
theorem c6_perform_verification_uses_popped_context_witness :
    (lcStateB2.pending_heights = 3 :: 5 :: []
      ∧ trustedAt3.header.height = 3
      ∧ lcStateB2.pending_states.lookup 3 = some ⟨clientTrusted, 3, ⟨1, 3⟩, 100, 15⟩)
    ∧ (lightClientHandle lcStateB2 (.NewTrustedState trustedAt3)).1
      = .ok (.PerformVerification trustedAt3 5
          (⟨clientTrusted, 3, ⟨1, 3⟩, 100, 15⟩ : ClientPendingState).trust_threshold
          (⟨clientTrusted, 3, ⟨1, 3⟩, 100, 15⟩ : ClientPendingState).trusting_period
          (⟨clientTrusted, 3, ⟨1, 3⟩, 100, 15⟩ : ClientPendingState).now) :=
  ⟨⟨rfl, rfl, rfl⟩,
    c6_perform_verification_uses_popped_context lcStateB2 trustedAt3 3 5 []
      ⟨clientTrusted, 3, ⟨1, 3⟩, 100, 15⟩ rfl rfl rfl⟩

/-- Client state after `VerifyAtHeight{clientTrusted, 5}` (context 1/3, 100,
15): pending heights `[5]`. -/
def lcStateE1 : LightClientState :=
  (lightClientHandle ⟨[], [], [], []⟩
    (.VerifyAtHeight clientTrusted 5 ⟨1, 3⟩ 100 15)).2

/-- After additionally `VerifyAtHeight{clientTrusted, 3}` (the routed pivot):
pending heights `[3, 5]`. -/
def lcStateE2 : LightClientState :=
  (lightClientHandle lcStateE1 (.VerifyAtHeight clientTrusted 3 ⟨1, 3⟩ 100 15)).2

/-- After `NewTrustedState(trustedAt3)`: height 3 verified,
`verified_states = [trustedAt3]`, pending heights `[5]`. -/
def lcStateE3 : LightClientState :=
  (lightClientHandle lcStateE2 (.NewTrustedState trustedAt3)).2

/-- After `NewTrustedState(trustedAt9)` - a desynchronization (expected 5,
got 9): the request fails, but `verified_states` keeps `trustedAt3`. -/
def lcStateE4 : LightClientState :=
  (lightClientHandle lcStateE3 (.NewTrustedState trustedAt9)).2

/-- A fresh top-level request `VerifyAtHeight{clientTrusted, 8}` issued after
the failure. -/
def lcStateE5 : LightClientState :=
  (lightClientHandle lcStateE4 (.VerifyAtHeight clientTrusted 8 ⟨1, 3⟩ 100 15)).2

/-- Claim C7: trusted states accumulated in `verified_states` before a
failure are claimed to be discarded, so that no later request's
`NewTrustedStates` contains them.  In the code no error path clears
`verified_states` (`reset` runs only on the success path and clears only
`pending_heights`/`pending_states`), so after the `NextHeightMismatch`
failure below, `trustedAt3` - accumulated under the FAILED request - is still
in `verified_states` and is returned inside the NEXT successful request's
`NewTrustedStates{8, [trustedAt3, trustedAt8]}`.  The spec's discard policy
is the evident intent (a later request must not report states it did not
verify); the missing cleanup is a code bug, evaluated here on a full event
run. -/
theorem c7_partial_results_leak_across_requests :
    (lightClientHandle lcStateE3 (.NewTrustedState trustedAt9)).1
      = .error (.NextHeightMismatch 5 9)
    ∧ lcStateE4.verified_states = [trustedAt3]
    ∧ (lightClientHandle lcStateE5 (.NewTrustedState trustedAt8)).1
      = .ok (.NewTrustedStates 8 [trustedAt3, trustedAt8]) := by
  refine ⟨rfl, rfl, rfl⟩

/-- Claim C10: handling `NewTrustedState(TS)` with `pending_heights` empty
returns `Ok(AlreadyVerified(TS.header.height))` and leaves the entire client
state unchanged: `pop_front` on the empty deque yields `None` and the `None`
arm builds the output without touching `trusted_store`, `verified_states`,
`pending_heights` or `pending_states`. -/
theorem c10_already_verified_frame (s : LightClientState) (ts : TrustedState)
    (h : s.pending_heights = []) :
    lightClientHandle s (.NewTrustedState ts)
      = (.ok (.AlreadyVerified ts.header.height), s) := by
  unfold lightClientHandle
  rw [h]

/-- Witness for C10 at a state with residual entries in every other field
(as can arise after a failed request): output `AlreadyVerified 8`, state
untouched. -/
theorem c10_already_verified_frame_witness :
    lcStateE4.pending_heights = []
    ∧ lightClientHandle lcStateE4 (.NewTrustedState trustedAt8)
      = (.ok (.AlreadyVerified 8), lcStateE4) :=
  ⟨rfl, c10_already_verified_frame lcStateE4 trustedAt8 rfl⟩

/-- Signature verification oracle that accepts slot 0 only. -/
def cexVerify : Nat → Bool := fun i => i == 0

/-- Counterexample to claim C8: two Commit slots over validators of powers
`[2, 1]` (total 3, needed `3 * 2 / 3 = 2`); slot 0 verifies and already tallies
2 ≥ 2, so the loop breaks and returns `Ok 2` even though slot 1 is a
non-Absent slot whose signature verification FAILS: the early exit masks the
bad signature, contradicting the claim's unconditional "MUST fail with
ImplementationSpecific if any signature verification fails". -/
theorem c8_early_exit_masks_bad_signature_cex :
    prod_voting_power_in cexVerify [2, 1]
        [.BlockIDFlagCommit, .BlockIDFlagCommit] = .ok 2
    ∧ [CommitSig.BlockIDFlagCommit, CommitSig.BlockIDFlagCommit].get? 1
      = some .BlockIDFlagCommit
    ∧ CommitSig.BlockIDFlagCommit.is_absent = false
    ∧ cexVerify 1 = false := by
  refine ⟨rfl, rfl, rfl, rfl⟩

/-- An error of the voting power loop pinpoints a reachable non-Absent slot
whose signature verification failed (indices relative to the starting
`idx`). -/
theorem voting_power_loop_error_has_bad_signature
    (verify_signature : Nat → Bool) (validators : List Nat) (needed : Nat) :
    ∀ (signatures : List CommitSig) (idx tallied : Nat) (e : Error),
      voting_power_loop verify_signature validators needed signatures idx tallied
        = .error e →
      e = .ImplementationSpecific ∧
        ∃ j s, signatures.get? j = some s ∧ s.is_absent = false ∧
          verify_signature (idx + j) = false := by
  intro signatures
  induction signatures with
  | nil => intro idx tallied e h; simp [voting_power_loop] at h
  | cons sig rest ih =>
      intro idx tallied e h
      rw [voting_power_loop] at h
      by_cases hab : sig.is_absent = true
      · rw [if_pos hab] at h
        obtain ⟨he, j, s, hj, hs, hv⟩ := ih (idx + 1) tallied e h
        refine ⟨he, j + 1, s, by simpa using hj, hs, ?_⟩
        have : idx + (j + 1) = idx + 1 + j := by omega
        rw [this]; exact hv
      · rw [if_neg hab] at h
        by_cases hv : verify_signature idx = true
        · simp only [hv, Bool.not_true, Bool.false_eq_true, if_false] at h
          by_cases hle : needed ≤ (if sig.is_commit then
              tallied + validators.getD idx 0 else tallied)
          · rw [if_pos hle] at h; exact absurd h (by simp)
          · rw [if_neg hle] at h
            obtain ⟨he, j, s, hj, hs, hv'⟩ := ih (idx + 1) _ e h
            refine ⟨he, j + 1, s, by simpa using hj, hs, ?_⟩
            have : idx + (j + 1) = idx + 1 + j := by omega
            rw [this]; exact hv'
        · simp only [Bool.not_eq_true] at hv
          rw [hv] at h
          simp only [Bool.not_false, if_true, Except.error.injEq] at h
          exact ⟨h.symm, 0, sig, rfl, by simpa using hab, by simpa using hv⟩

/-- A successful voting power loop run returns the tally of the Commit slots
of a processed front of the signatures: every non-Absent slot of that front
verified, and the front is either the whole list or ends at the early exit
(tally at least `needed`). -/
theorem voting_power_loop_ok_tallies_commit_front
    (verify_signature : Nat → Bool) (validators : List Nat) (needed : Nat) :
    ∀ (signatures : List CommitSig) (idx tallied t : Nat),
      voting_power_loop verify_signature validators needed signatures idx tallied
        = .ok t →
      ∃ n, n ≤ signatures.length ∧
        t = tallied + commit_power_from validators idx (signatures.take n) ∧
        (∀ j s, j < n → signatures.get? j = some s → s.is_absent = false →
          verify_signature (idx + j) = true) ∧
        (n = signatures.length ∨ needed ≤ t) := by
  intro signatures
  induction signatures with
  | nil =>
      intro idx tallied t h
      rw [voting_power_loop] at h
      simp only [Except.ok.injEq] at h
      exact ⟨0, by simp, by simp [commit_power_from, h], by simp, by simp⟩
  | cons sig rest ih =>
      intro idx tallied t h
      rw [voting_power_loop] at h
      by_cases hab : sig.is_absent = true
      · rw [if_pos hab] at h
        obtain ⟨n, hn, ht, hver, hlast⟩ := ih (idx + 1) tallied t h
        have hnc : sig.is_commit = false := by
          cases sig <;> simp_all [CommitSig.is_absent, CommitSig.is_commit]
        refine ⟨n + 1, by simpa using hn, ?_, ?_, ?_⟩
        · simpa [List.take_succ_cons, commit_power_from, hnc] using ht
        · intro j s hj hjs hs
          cases j with
          | zero =>
              simp only [List.get?_cons_zero, Option.some.injEq] at hjs
              rw [← hjs] at hs; rw [hab] at hs; exact absurd hs (by simp)
          | succ j' =>
              have : idx + (j' + 1) = idx + 1 + j' := by omega
              rw [this]
              exact hver j' s (by omega) (by simpa using hjs) hs
        · rcases hlast with hl | hr
          · exact Or.inl (by simp [hl])
          · exact Or.inr hr
      · rw [if_neg hab] at h
        by_cases hv : verify_signature idx = true
        · simp only [hv, Bool.not_true, Bool.false_eq_true, if_false] at h
          by_cases hle : needed ≤ (if sig.is_commit then
              tallied + validators.getD idx 0 else tallied)
          · rw [if_pos hle] at h
            simp only [Except.ok.injEq] at h
            refine ⟨1, by simp, ?_, ?_, Or.inr (by rw [h] at hle; exact hle)⟩
            · rw [← h]
              cases hc : sig.is_commit <;>
                simp [List.take_succ_cons, commit_power_from, hc]
            · intro j s hj hjs hs
              interval_cases j
              simpa using hv
          · rw [if_neg hle] at h
            obtain ⟨n, hn, ht, hver, hlast⟩ := ih (idx + 1) _ t h
            refine ⟨n + 1, by simpa using hn, ?_, ?_, ?_⟩
            · rw [ht]
              cases hc : sig.is_commit <;>
                simp [List.take_succ_cons, commit_power_from, hc, Nat.add_assoc]
            · intro j s hj hjs hs
              cases j with
              | zero => simpa using hv
              | succ j' =>
                  have : idx + (j' + 1) = idx + 1 + j' := by omega
                  rw [this]
                  exact hver j' s (by omega) (by simpa using hjs) hs
            · rcases hlast with hl | hr
              · exact Or.inl (by simp [hl])
              · exact Or.inr hr
        · simp only [Bool.not_eq_true] at hv
          rw [hv] at h
          simp only [Bool.not_false, if_true] at h
          exact absurd h (by simp)

/-- Claim C8 as amended: for slot lists not exceeding the validator count
(`validators[idx]` panics otherwise), (a) `voting_power_in` fails - always
with `ImplementationSpecific` - only when some non-Absent slot that the loop
actually reaches fails signature verification against the validator at the
same index (a bad signature AFTER the early exit point is not detected, per
the counterexample); and (b) on success the returned sum is the Commit-slot
power of a front of the signature list, every non-Absent slot of that front
verified, the front being the whole list unless the early exit fired with the
tally at least `2 * total / 3`.  Nil slots are verified but never tallied;
Absent slots are skipped. -/
theorem c8_voting_power_in_characterization
    (verify_signature : Nat → Bool) (validators : List Nat)
    (signatures : List CommitSig)
    (_hlen : signatures.length ≤ validators.length) :
    (∀ e, prod_voting_power_in verify_signature validators signatures = .error e →
      e = .ImplementationSpecific ∧
        ∃ j s, signatures.get? j = some s ∧ s.is_absent = false ∧
          verify_signature j = false)
    ∧ (∀ t, prod_voting_power_in verify_signature validators signatures = .ok t →
      ∃ n, n ≤ signatures.length ∧
        t = commit_power_from validators 0 (signatures.take n) ∧
        (∀ j s, j < n → signatures.get? j = some s → s.is_absent = false →
          verify_signature j = true) ∧
        (n = signatures.length ∨ total_power validators * 2 / 3 ≤ t)) := by
  constructor
  · intro e h
    obtain ⟨he, j, s, hj, hs, hv⟩ :=
      voting_power_loop_error_has_bad_signature verify_signature validators
        (total_power validators * 2 / 3) signatures 0 0 e h
    exact ⟨he, j, s, hj, hs, by simpa using hv⟩
  · intro t h
    obtain ⟨n, hn, ht, hver, hlast⟩ :=
      voting_power_loop_ok_tallies_commit_front verify_signature validators
        (total_power validators * 2 / 3) signatures 0 0 t h
    exact ⟨n, hn, by simpa using ht,
      fun j s hj hjs hs => by simpa using hver j s hj hjs hs, hlast⟩

/-- Witness for the amended C8 at a concrete commit: one Absent slot, one
verifying Nil slot, one verifying Commit slot over powers `[5, 4, 2]`. -/
theorem c8_voting_power_in_characterization_witness :
    ([CommitSig.BlockIDFlagAbsent, .BlockIDFlagNil, .BlockIDFlagCommit].length
        ≤ [5, 4, 2].length)
    ∧ ((∀ e, prod_voting_power_in (fun _ => true) [5, 4, 2]
          [.BlockIDFlagAbsent, .BlockIDFlagNil, .BlockIDFlagCommit] = .error e →
        e = .ImplementationSpecific ∧
          ∃ j s, [CommitSig.BlockIDFlagAbsent, .BlockIDFlagNil,
              .BlockIDFlagCommit].get? j = some s ∧ s.is_absent = false ∧
            (fun (_ : Nat) => true) j = false)
      ∧ (∀ t, prod_voting_power_in (fun _ => true) [5, 4, 2]
            [.BlockIDFlagAbsent, .BlockIDFlagNil, .BlockIDFlagCommit] = .ok t →
        ∃ n, n ≤ [CommitSig.BlockIDFlagAbsent, .BlockIDFlagNil,
              .BlockIDFlagCommit].length ∧
          t = commit_power_from [5, 4, 2] 0
              ([CommitSig.BlockIDFlagAbsent, .BlockIDFlagNil,
                .BlockIDFlagCommit].take n) ∧
          (∀ j s, j < n → [CommitSig.BlockIDFlagAbsent, .BlockIDFlagNil,
              .BlockIDFlagCommit].get? j = some s → s.is_absent = false →
            (fun (_ : Nat) => true) j = true) ∧
          (n = [CommitSig.BlockIDFlagAbsent, .BlockIDFlagNil,
              .BlockIDFlagCommit].length ∨
            total_power [5, 4, 2] * 2 / 3 ≤ t))) :=
  ⟨by decide,
    c8_voting_power_in_characterization (fun _ => true) [5, 4, 2]
      [.BlockIDFlagAbsent, .BlockIDFlagNil, .BlockIDFlagCommit] (by decide)⟩

/-- Counterexample to claim C9: at gap 1 (trusted height 10, untrusted height
11) with insufficient overlap, the process produces the pivot
`(10 + 11) / 2 = 10`, which is NOT strictly between the trusted and untrusted
heights (`10 < 10` fails): the integer midpoint of a gap-1 range equals its
lower endpoint, exactly the degenerate case the spec's design notes flag. -/
theorem c9_gap_one_pivot_not_strict_cex :
    bisect (fun _ _ => false) 10 11 = ([10], false)
    ∧ compute_pivot_height trustedStateA ⟨⟨3, 5, 200, 7, 60⟩, ⟨60⟩, ⟨200⟩, 5⟩
      = some 2
    ∧ ¬ (10 : Nat) < 10 := by
  refine ⟨?_, by decide, by decide⟩
  rw [bisect]
  norm_num

/-- Every pivot the bisection process produces lies in `[t, u)`: at least the
trusted height (with equality exactly in the degenerate gap-1 case) and
strictly below the untrusted height. -/
theorem bisect_pivot_bounds :
    ∀ (g : Nat) (ok : Nat → Nat → Bool) (t u : Nat), u - t ≤ g → t < u →
      ∀ p ∈ (bisect ok t u).1, t ≤ p ∧ p < u := by
  intro g
  induction g with
  | zero => intro ok t u hg ht; exact absurd ht (by omega)
  | succ g ih =>
      intro ok t u hg ht p hp
      rw [bisect, dif_pos ht] at hp
      by_cases hok : ok t u = true
      · rw [if_pos hok] at hp; simp at hp
      · rw [if_neg hok] at hp
        by_cases hov : t + u < 2 ^ 64
        · rw [dif_pos hov] at hp
          by_cases hm : t < (t + u) / 2
          · rw [dif_pos hm] at hp
            dsimp only at hp
            by_cases hr : (bisect ok t ((t + u) / 2)).2 = true
            · rw [if_pos hr] at hp
              dsimp only at hp
              rcases List.mem_cons.1 hp with hpm | hp'
              · omega
              · rcases List.mem_append.1 hp' with h1 | h2
                · have := ih ok t ((t + u) / 2) (by omega) hm p h1
                  omega
                · have := ih ok ((t + u) / 2) u (by omega) (by omega) p h2
                  omega
            · rw [if_neg hr] at hp
              dsimp only at hp
              rcases List.mem_cons.1 hp with hpm | hp'
              · omega
              · have := ih ok t ((t + u) / 2) (by omega) hm p hp'
                omega
          · rw [dif_neg hm] at hp
            dsimp only at hp
            rcases List.mem_cons.1 hp with hpm | hp'
            · omega
            · simp at hp'
        · rw [dif_neg hov] at hp; simp at hp

/-- The number of nested bisection rounds is at most `⌈log₂ (u - t)⌉ + 1`:
each bisection recurses on sub-gaps of at most `⌈(u - t) / 2⌉`, and
`Nat.clog` satisfies exactly that halving recursion. -/
theorem bisect_rounds_le_clog :
    ∀ (g : Nat) (ok : Nat → Nat → Bool) (t u : Nat), u - t ≤ g → t < u →
      bisect_rounds ok t u ≤ Nat.clog 2 (u - t) + 1 := by
  intro g
  induction g with
  | zero => intro ok t u hg ht; exact absurd ht (by omega)
  | succ g ih =>
      intro ok t u hg ht
      rw [bisect_rounds, dif_pos ht]
      by_cases hok : ok t u = true
      · rw [if_pos hok]; exact Nat.zero_le _
      · rw [if_neg hok]
        by_cases hov : t + u < 2 ^ 64
        · rw [dif_pos hov]
          by_cases hm : t < (t + u) / 2
          · rw [dif_pos hm]
            have h2 : 2 ≤ u - t := by omega
            have ih1 := ih ok t ((t + u) / 2) (by omega) hm
            have ih2 := ih ok ((t + u) / 2) u (by omega) (by omega)
            have hchain : Nat.clog 2 (u - t) = Nat.clog 2 ((u - t + 1) / 2) + 1 := by
              have := Nat.clog_of_two_le (b := 2) (n := u - t) (by norm_num) h2
              have harg : (u - t + 2 - 1) / 2 = (u - t + 1) / 2 := by omega
              rw [harg] at this
              exact this
            have m1 : Nat.clog 2 ((t + u) / 2 - t) ≤ Nat.clog 2 ((u - t + 1) / 2) :=
              Nat.clog_mono_right 2 (by omega)
            have m2 : Nat.clog 2 (u - (t + u) / 2) ≤ Nat.clog 2 ((u - t + 1) / 2) :=
              Nat.clog_mono_right 2 (by omega)
            have hmax : max (bisect_rounds ok t ((t + u) / 2))
                (bisect_rounds ok ((t + u) / 2) u) ≤ Nat.clog 2 (u - t) := by
              refine Nat.max_le.mpr ⟨?_, ?_⟩
              · rw [hchain]; omega
              · rw [hchain]; omega
            omega
          · rw [dif_neg hm]
            omega
        · rw [dif_neg hov]; exact Nat.zero_le _

/-- Claim C9 as amended: for every request with trusted height `t` and target
`u > t`, the bisection process terminates (`bisect` is total), every pivot it
produces satisfies `t ≤ pivot < u` - strictly between the endpoints except in
the gap-1 case, where the pivot equals the trusted height and the spec's
strict-betweenness fails - and the number of NESTED bisection rounds (pivots
simultaneously outstanding) is at most `⌈log₂ (u - t)⌉ + 1`.  The total
number of pivots over a whole request is not bounded by `⌈log₂ G⌉ + 1`: the
claimed bound holds for the nesting depth. -/
theorem c9_bisect_bounds_amended (ok : Nat → Nat → Bool) (t u : Nat) (h : t < u) :
    (∀ p ∈ (bisect ok t u).1, t ≤ p ∧ p < u)
    ∧ bisect_rounds ok t u ≤ Nat.clog 2 (u - t) + 1 :=
  ⟨bisect_pivot_bounds (u - t) ok t u le_rfl h,
    bisect_rounds_le_clog (u - t) ok t u le_rfl h⟩

/-- Witness for the amended C9 at a concrete gap-4 request with an
always-failing overlap oracle. -/
theorem c9_bisect_bounds_amended_witness :
    (10 : Nat) < 14
    ∧ ((∀ p ∈ (bisect (fun _ _ => false) 10 14).1, 10 ≤ p ∧ p < 14)
      ∧ bisect_rounds (fun _ _ => false) 10 14 ≤ Nat.clog 2 (14 - 10) + 1) :=
  ⟨by decide, c9_bisect_bounds_amended (fun _ _ => false) 10 14 (by decide)⟩
